import Mathlib

/-!
Formal model of the alert deduplication / cooldown core of the
liqwid-hf-monitor worker, shallowly embedded from the TypeScript source:

* `src/src/lib/index.ts` — `AlertManager.shouldSendAlert`,
  `AlertManager.recordAlert` (cooldown state machine over a key/value store);
* `src/unnamed/part_002` — `getRiskLevel` (pure risk classifier);
* `src/src/index.ts` — the `scheduled` orchestrator: the per-loan alert loop,
  the price-mirror throttle and the error-alert throttle;
* `src/src/lib/alerts.ts` — `sendAlert`, which always returns a boolean and
  never throws (every `throw` inside it is caught by its own handler), so it is
  modelled as an outcome oracle.

JavaScript numbers are modelled by `JSNum` (`NaN`, the two infinities, and a
finite value represented by a rational); the only operations the monitored code
performs on health factors are `<` comparisons, whose IEEE-754 semantics on
these values (`NaN` compares false to everything) are captured exactly by
`jlt` / `jle`.  Timestamps are integers (epoch milliseconds); within one cycle
the successive `Date.now()` calls are modelled by a single instant `now`.

The key/value namespace (Cloudflare `KVNamespace`) is modelled as an
association list from keys to stored values.  A stored value is either a JSON
string parseable as an `AlertRecord`, a decimal-integer string (what
`currentTime.toString()` writes for the throttle timestamps), an unparseable
string, or a key whose read throws.  Store-side TTL expiry of alert records
(the `expirationTtl: 3600` passed to `put`) is behaviour of the external store,
not of this code, and is not simulated; an expired record is simply an absent
one, which the cooldown logic already treats as "send".
-/

/-- JavaScript number as used by the monitor: `NaN`, `±Infinity`, or a finite
value, with finite values idealised as rationals (the code only compares them,
never does arithmetic on them). -/
inductive JSNum where
  | nan
  | negInf
  | posInf
  | fin (q : ℚ)
deriving DecidableEq, Repr

/-- JavaScript `<` on `JSNum`: any comparison involving `NaN` is `false`;
otherwise the usual extended ordering. -/
def jlt (a b : JSNum) : Bool :=
  match a, b with
  | .nan, _ => false
  | _, .nan => false
  | .negInf, .negInf => false
  | .negInf, .posInf => true
  | .negInf, .fin _ => true
  | .posInf, _ => false
  | .fin _, .negInf => false
  | .fin _, .posInf => true
  | .fin x, .fin y => x < y

/-- JavaScript `<=` on `JSNum`: any comparison involving `NaN` is `false`;
otherwise the usual extended ordering. -/
def jle (a b : JSNum) : Bool :=
  match a, b with
  | .nan, _ => false
  | _, .nan => false
  | .negInf, _ => true
  | _, .posInf => true
  | .posInf, _ => false
  | .fin _, .negInf => false
  | .fin x, .fin y => x ≤ y

/-- Risk tier returned by `getRiskLevel` in `src/unnamed/part_002`. -/
inductive RiskLevel where
  | safe
  | warning
  | critical
deriving DecidableEq, Repr

/-- `getRiskLevel(healthFactor, warnThreshold, criticalThreshold)` from
`src/unnamed/part_002`: first match wins —
`healthFactor < criticalThreshold` → critical, else
`healthFactor < warnThreshold` → warning, else safe. -/
def getRiskLevel (healthFactor warnThreshold criticalThreshold : JSNum) : RiskLevel :=
  if jlt healthFactor criticalThreshold then .critical
  else if jlt healthFactor warnThreshold then .warning
  else .safe

/-- `AlertLevel` from `src/src/lib/alerts.ts`. -/
inductive AlertLevel where
  | info
  | warning
  | critical
  | error
deriving DecidableEq, Repr

/-- The `level` field of a stored `AlertRecord`
(TS type `'warning' | 'critical'`). -/
inductive RecordLevel where
  | warning
  | critical
deriving DecidableEq, Repr

/-- `AlertRecord` from `src/src/lib/index.ts` (the alertManager module):
the JSON record stored under `alert:{loanId}`. -/
structure AlertRecord where
  level : RecordLevel
  timestamp : Int
  assetSymbol : String
deriving DecidableEq, Repr

/-- A value stored in the key/value namespace, classified by how the two
readers (`JSON.parse` and `parseInt`) behave on the underlying string:
`record r` is a JSON string parsing to an alert record, `intStr t` a
decimal-integer string (as written by `currentTime.toString()`), `corrupt` a
string on which `JSON.parse` throws and `parseInt` yields `NaN`, and
`readFail` marks a key whose `get` itself throws. -/
inductive KVValue where
  | record (r : AlertRecord)
  | intStr (t : Int)
  | corrupt
  | readFail
deriving DecidableEq, Repr

/-- The key/value store: an association list, most recent write first. -/
abbrev Store := List (String × KVValue)

/-- Read a key: the most recently written value, if any. -/
def kvGet (s : Store) (k : String) : Option KVValue :=
  (s.find? (fun e => e.1 == k)).map (·.2)

/-- Write a key (last-write-wins is realised by `kvGet` taking the first
matching entry). `none` (no namespace bound) stays `none`. -/
def kvPut (kv : Option Store) (k : String) (v : KVValue) : Option Store :=
  kv.map (fun s => (k, v) :: s)

/-- `AlertManager.COOLDOWN_MS = 10 * 60 * 1000`. -/
def COOLDOWN_MS : Int := 10 * 60 * 1000

/-- The storage key `alert:{loanId}`. -/
def alertKey (loanId : String) : String := "alert:" ++ loanId

/-- `AlertManager.shouldSendAlert(loanId, currentLevel, _assetSymbol)` from
`src/src/lib/index.ts`, with the ambient `Date.now()` passed as `now` and the
optional KV namespace as `kv`.  Faithful branch order: no store → `true`;
level other than warning/critical → `true`; absent record → `true`; a read or
`JSON.parse` failure is caught and yields `true`; on the `intStr` degenerate
case `JSON.parse` succeeds on the bare number, the resulting object has
`level`/`timestamp` `undefined`, so the escalation test fails and
`Date.now() - undefined` is `NaN`, making `NaN >= COOLDOWN_MS` false — the
function returns `false`; otherwise the escalation override then the elapsed
`>=` cooldown test. -/
def shouldSendAlert (kv : Option Store) (loanId : String) (currentLevel : AlertLevel)
    (_assetSymbol : String) (now : Int) : Bool :=
  match kv with
  | none => true
  | some store =>
    if currentLevel ≠ AlertLevel.warning ∧ currentLevel ≠ AlertLevel.critical then true
    else
      match kvGet store (alertKey loanId) with
      | none => true
      | some KVValue.corrupt => true
      | some KVValue.readFail => true
      | some (KVValue.intStr _) => false
      | some (KVValue.record lastAlert) =>
        let timeSinceLastAlert : Int := now - lastAlert.timestamp
        if currentLevel = AlertLevel.critical ∧ lastAlert.level = RecordLevel.warning then true
        else if timeSinceLastAlert ≥ COOLDOWN_MS then true
        else false

/-- `AlertManager.recordAlert(loanId, level, assetSymbol)` from
`src/src/lib/index.ts`: no-op without a store or for a level other than
warning/critical; otherwise overwrite the record under `alert:{loanId}` with
the current timestamp and given level (the `expirationTtl`/`metadata` options
of the `put` are store-side behaviour, not modelled). -/
def recordAlert (kv : Option Store) (loanId : String) (level : AlertLevel)
    (assetSymbol : String) (now : Int) : Option Store :=
  match kv with
  | none => none
  | some store =>
    match level with
    | AlertLevel.warning =>
      some ((alertKey loanId,
        KVValue.record ⟨RecordLevel.warning, now, assetSymbol⟩) :: store)
    | AlertLevel.critical =>
      some ((alertKey loanId,
        KVValue.record ⟨RecordLevel.critical, now, assetSymbol⟩) :: store)
    | _ => some store

/-- One loan snapshot as consumed by the `scheduled` loop in
`src/src/index.ts` (`id`, `healthFactor`, `assetSymbol`). -/
structure Loan where
  id : String
  healthFactor : JSNum
  assetSymbol : String
deriving DecidableEq, Repr

/-- One entry of the `hf_results` list built by the loop (pushed for every
loan, before any threshold check). -/
structure HFResult where
  id : String
  healthFactor : JSNum
  assetSymbol : String
deriving DecidableEq, Repr

/-- One entry of the `alertsSent` list (pushed after a dispatch and record,
whatever the transport outcome). -/
structure SentAlert where
  assetSymbol : String
  id : String
  hf : JSNum
  level : AlertLevel
deriving DecidableEq, Repr

/-- State threaded through the per-loan loop of `scheduled`: the optional KV
namespace, the `alertsSent` and `hf_results` accumulators, and a log of the
`sendAlert` calls made (loan id, level, transport outcome).  The outcome field
exists only in the log: the code discards `sendAlert`'s boolean. -/
structure CycleState where
  kv : Option Store
  alertsSent : List SentAlert
  dispatches : List (String × AlertLevel × Bool)
  hfResults : List HFResult
deriving DecidableEq, Repr

/-- Erase transport outcomes from a dispatch log, leaving the attempts. -/
def attemptsOf (l : List (String × AlertLevel × Bool)) : List (String × AlertLevel) :=
  l.map (fun d => (d.1, d.2.1))

/-- One iteration of the loan loop in `src/src/index.ts` (lines 84–120):
push to `hf_results`; if `healthFactor < HF_CRIT`, consult the cooldown and,
when permitted, dispatch (outcome from the `oracle`, indexed by how many
dispatches happened before — `sendAlert` never throws, every failure path in
`src/src/lib/alerts.ts` returns `false`), record the alert and push to
`alertsSent`; else the same for `healthFactor < HF_WARN` at warning level;
else nothing. -/
def processLoan (warn crit : JSNum) (now : Int) (oracle : Nat → Bool)
    (st : CycleState) (loan : Loan) : CycleState :=
  let st1 : CycleState :=
    { st with hfResults := st.hfResults ++
        [{ id := loan.id, healthFactor := loan.healthFactor,
           assetSymbol := loan.assetSymbol }] }
  if jlt loan.healthFactor crit then
    if shouldSendAlert st1.kv loan.id AlertLevel.critical loan.assetSymbol now then
      { st1 with
        dispatches := st1.dispatches ++
          [(loan.id, AlertLevel.critical, oracle st1.dispatches.length)],
        kv := recordAlert st1.kv loan.id AlertLevel.critical loan.assetSymbol now,
        alertsSent := st1.alertsSent ++
          [{ assetSymbol := loan.assetSymbol, id := loan.id,
             hf := loan.healthFactor, level := AlertLevel.critical }] }
    else st1
  else if jlt loan.healthFactor warn then
    if shouldSendAlert st1.kv loan.id AlertLevel.warning loan.assetSymbol now then
      { st1 with
        dispatches := st1.dispatches ++
          [(loan.id, AlertLevel.warning, oracle st1.dispatches.length)],
        kv := recordAlert st1.kv loan.id AlertLevel.warning loan.assetSymbol now,
        alertsSent := st1.alertsSent ++
          [{ assetSymbol := loan.assetSymbol, id := loan.id,
             hf := loan.healthFactor, level := AlertLevel.warning }] }
    else st1
  else st1

/-- The whole per-loan loop of one monitoring cycle over a loan snapshot
list. -/
def runLoanCycle (warn crit : JSNum) (now : Int) (oracle : Nat → Bool)
    (kv0 : Option Store) (loans : List Loan) : CycleState :=
  loans.foldl (processLoan warn crit now oracle)
    { kv := kv0, alertsSent := [], dispatches := [], hfResults := [] }

/-- The code's `env.HF_MONITOR_STATE ? await env.HF_MONITOR_STATE.get(key) :
null` ternary: read a throttle key when a namespace is bound, else `null`. -/
def kvRead (kv : Option Store) (k : String) : Option KVValue :=
  kv.bind (fun s => kvGet s k)

/-- `ERROR_ALERT_COOLDOWN_MS = 12 * 60 * 60 * 1000` from `src/src/index.ts`. -/
def ERROR_ALERT_COOLDOWN_MS : Int := 12 * 60 * 60 * 1000

/-- `PRICE_UPDATE_INTERVAL_MS = 60 * 60 * 1000` from `src/src/index.ts`. -/
def PRICE_UPDATE_INTERVAL_MS : Int := 60 * 60 * 1000

/-- The throttled error-alert path of `scheduled` (`src/src/index.ts` lines
207–244), run when the cycle failed.  Reads `lastErrorAlertTime` (absent
when no namespace is bound — the code's ternary yields `null`); a read that
throws is caught by the surrounding handler, so nothing is attempted.  The
gate is `!lastErrorTime || (currentTime - parseInt(lastErrorTime)) >
ERROR_ALERT_COOLDOWN_MS` — note the strict `>`; `parseInt` of a
non-numeric string gives `NaN`, whose comparison is false, so the gate
fails.  When the gate passes, the alert is dispatched (outcome ignored)
and the timestamp is written back when a namespace is bound.  Returns
(attempted?, new store). -/
def errorAlertStep (kv : Option Store) (now : Int) : Bool × Option Store :=
  match kvRead kv "lastErrorAlertTime" with
  | some KVValue.readFail => (false, kv)
  | some (KVValue.intStr t) =>
    if now - t > ERROR_ALERT_COOLDOWN_MS then
      (true, kvPut kv "lastErrorAlertTime" (KVValue.intStr now))
    else (false, kv)
  | none => (true, kvPut kv "lastErrorAlertTime" (KVValue.intStr now))
  | some _ => (false, kv)

/-- What the Notion mirror interaction did once the throttle gate passed:
the symbol query, price fetch or database push threw (all caught by the
`notionError` handler), the symbol list was empty, or the push call returned
(its `UpdateResult` may itself list per-symbol errors — the code still counts
that as success). -/
inductive MirrorOutcome where
  | symbolsThrew
  | noSymbols
  | pricesThrew
  | pushThrew
  | pushReturned
deriving DecidableEq, Repr

/-- The price-mirror step of `scheduled` (`src/src/index.ts` lines 131–199).
Skipped outright unless `NOTION_PRICES_DB_ID` is configured.  Reads
`lastPriceUpdateTime`; a read that throws is caught by the `notionError`
handler (nothing runs, nothing written).  The gate is `!lastPriceUpdateTime
|| (currentTime - parseInt(lastPriceUpdateTime)) > PRICE_UPDATE_INTERVAL_MS`
(strict `>`; `parseInt` of a non-numeric string gives `NaN`, comparison
false).  When the gate passes the mirror work runs; the timestamp is written
back only when the push call returned and a namespace is bound.  Returns
(gate passed / mirror work ran?, new store). -/
def priceMirrorStep (kv : Option Store) (now : Int) (dbConfigured : Bool)
    (outcome : MirrorOutcome) : Bool × Option Store :=
  if !dbConfigured then (false, kv)
  else
    match kvRead kv "lastPriceUpdateTime" with
    | some KVValue.readFail => (false, kv)
    | some (KVValue.intStr t) =>
      if now - t > PRICE_UPDATE_INTERVAL_MS then
        match outcome with
        | MirrorOutcome.pushReturned =>
          (true, kvPut kv "lastPriceUpdateTime" (KVValue.intStr now))
        | _ => (true, kv)
      else (false, kv)
    | none =>
      match outcome with
      | MirrorOutcome.pushReturned =>
        (true, kvPut kv "lastPriceUpdateTime" (KVValue.intStr now))
      | _ => (true, kv)
    | some _ => (false, kv)

lemma kvGet_cons_self (k : String) (v : KVValue) (s : Store) :
    kvGet ((k, v) :: s) k = some v := by
  simp [kvGet, List.find?]

/-- C1: with a store bound and no `AlertRecord` for `id`, `shouldSendAlert`
at a throttled level returns `true`; after `recordAlert` at time `t`, a
subsequent `shouldSendAlert` for the same loan and level at `t'` returns
`false` while `t' - t < COOLDOWN_MS` (10 minutes) and `true` once
`t' - t ≥ COOLDOWN_MS`. -/
theorem shouldSendAlert_cooldown_cycle (s : Store) (id sym : String)
    (L : AlertLevel) (t t' : Int)
    (hL : L = AlertLevel.warning ∨ L = AlertLevel.critical)
    (habs : kvGet s (alertKey id) = none) :
    shouldSendAlert (some s) id L sym t = true ∧
    (t' - t < COOLDOWN_MS →
      shouldSendAlert (recordAlert (some s) id L sym t) id L sym t' = false) ∧
    (t' - t ≥ COOLDOWN_MS →
      shouldSendAlert (recordAlert (some s) id L sym t) id L sym t' = true) := by
  rcases hL with h | h <;> subst h <;>
    refine ⟨by simp [shouldSendAlert, habs], ?_, ?_⟩ <;>
    intro hwin <;>
    simp [shouldSendAlert, recordAlert, kvGet_cons_self] <;>
    omega

/-- Witness for C1 at a concrete input. -/
theorem shouldSendAlert_cooldown_cycle_witness :
    shouldSendAlert (some []) "L1" AlertLevel.warning "ADA" 0 = true ∧
    ((0 : Int) - 0 < COOLDOWN_MS →
      shouldSendAlert (recordAlert (some []) "L1" AlertLevel.warning "ADA" 0)
        "L1" AlertLevel.warning "ADA" 0 = false) ∧
    ((0 : Int) - 0 ≥ COOLDOWN_MS →
      shouldSendAlert (recordAlert (some []) "L1" AlertLevel.warning "ADA" 0)
        "L1" AlertLevel.warning "ADA" 0 = true) :=
  shouldSendAlert_cooldown_cycle [] "L1" "ADA" AlertLevel.warning 0 0
    (Or.inl rfl) rfl

/-- C2: a stored `warning` record makes `shouldSendAlert` at level `critical`
return `true` at any time at or after the stored timestamp — the escalation
override bypasses the cooldown. -/
theorem shouldSendAlert_escalation_override (s : Store) (id sym : String)
    (r : AlertRecord) (now : Int)
    (hrec : kvGet s (alertKey id) = some (KVValue.record r))
    (hlvl : r.level = RecordLevel.warning)
    (_hts : r.timestamp ≤ now) :
    shouldSendAlert (some s) id AlertLevel.critical sym now = true := by
  simp [shouldSendAlert, hrec, hlvl]

/-- Witness for C2 at a concrete input: a warning stored at time 0, queried
for critical at time 0 (zero elapsed time). -/
theorem shouldSendAlert_escalation_override_witness :
    shouldSendAlert
      (some [("alert:L1", KVValue.record ⟨RecordLevel.warning, 0, "ADA"⟩)])
      "L1" AlertLevel.critical "ADA" 0 = true :=
  shouldSendAlert_escalation_override
    [("alert:L1", KVValue.record ⟨RecordLevel.warning, 0, "ADA"⟩)]
    "L1" "ADA" ⟨RecordLevel.warning, 0, "ADA"⟩ 0 rfl rfl le_rfl

/-- C3: with no store bound, `shouldSendAlert` returns `true` for every level
and `recordAlert` is a no-op (a total function in this model, as the code
returns before entering any fallible operation); and with a store bound, a
read that throws or a stored string that fails `JSON.parse` makes
`shouldSendAlert` return `true` (fail-open). -/
theorem shouldSendAlert_fail_open (s : Store) (id sym : String)
    (L : AlertLevel) (now : Int)
    (hbad : kvGet s (alertKey id) = some KVValue.readFail ∨
            kvGet s (alertKey id) = some KVValue.corrupt) :
    shouldSendAlert none id L sym now = true ∧
    recordAlert none id L sym now = none ∧
    shouldSendAlert (some s) id L sym now = true := by
  refine ⟨rfl, rfl, ?_⟩
  rcases hbad with h | h <;> cases L <;> simp [shouldSendAlert, h]

/-- Witness for C3 at a concrete input: a corrupt record under the loan's
key. -/
theorem shouldSendAlert_fail_open_witness :
    shouldSendAlert none "L1" AlertLevel.warning "ADA" 0 = true ∧
    recordAlert none "L1" AlertLevel.warning "ADA" 0 = none ∧
    shouldSendAlert (some [("alert:L1", KVValue.corrupt)])
      "L1" AlertLevel.warning "ADA" 0 = true :=
  shouldSendAlert_fail_open [("alert:L1", KVValue.corrupt)]
    "L1" "ADA" AlertLevel.warning 0 (Or.inr rfl)

/-- C5: with a stored `critical` record, a `warning` query is decided solely
by the plain elapsed-time rule against that record — `false` below the
10-minute cooldown, `true` at or above it; no de-escalation override
applies. -/
theorem shouldSendAlert_deescalation_plain (s : Store) (id sym : String)
    (r : AlertRecord) (now : Int)
    (hrec : kvGet s (alertKey id) = some (KVValue.record r))
    (hlvl : r.level = RecordLevel.critical) :
    shouldSendAlert (some s) id AlertLevel.warning sym now =
      decide (now - r.timestamp ≥ COOLDOWN_MS) := by
  by_cases h : now - r.timestamp ≥ COOLDOWN_MS <;>
    simp [shouldSendAlert, hrec, hlvl, h]

/-- Witness for C5 at a concrete input: a critical record at time 0, a
warning query at time 0 (inside the cooldown, so suppressed). -/
theorem shouldSendAlert_deescalation_plain_witness :
    shouldSendAlert
      (some [("alert:L1", KVValue.record ⟨RecordLevel.critical, 0, "ADA"⟩)])
      "L1" AlertLevel.warning "ADA" 0 =
      decide ((0 : Int) - 0 ≥ COOLDOWN_MS) :=
  shouldSendAlert_deescalation_plain
    [("alert:L1", KVValue.record ⟨RecordLevel.critical, 0, "ADA"⟩)]
    "L1" "ADA" ⟨RecordLevel.critical, 0, "ADA"⟩ 0 rfl rfl

lemma jlt_posInf_left (b : JSNum) : jlt JSNum.posInf b = false := by
  cases b <;> rfl

lemma jlt_nan_right (a : JSNum) : jlt a JSNum.nan = false := by
  cases a <;> rfl

lemma jlt_ne_nan {a b : JSNum} (h : jlt a b = true) :
    a ≠ JSNum.nan ∧ b ≠ JSNum.nan := by
  constructor <;> rintro rfl
  · simp [jlt] at h
  · simp [jlt_nan_right] at h

lemma jle_iff_not_jlt {a b : JSNum} (ha : a ≠ JSNum.nan) (hb : b ≠ JSNum.nan) :
    (jle a b = true ↔ jlt b a = false) := by
  cases a <;> cases b <;> simp_all [jlt, jle, not_lt]

lemma jlt_trans_jle {a b c : JSNum} (h1 : jlt a b = true) (h2 : jle b c = true) :
    jlt a c = true := by
  cases a <;> cases b <;> cases c <;> simp_all [jlt, jle]
  linarith

lemma jlt_asymm {a b : JSNum} (h : jlt a b = true) : jlt b a = false := by
  cases a <;> cases b <;> simp_all [jlt]
  linarith

/-- C4: for thresholds with `crit < warn` and a non-`NaN` health factor
(the numeric domain the intervals `[0,crit)`, `[crit,warn)`, `[warn,∞]`
describe), `getRiskLevel` yields exactly one of the three tiers:
critical iff `hf < crit`, warning iff `crit ≤ hf < warn`, safe iff
`hf ≥ warn` — boundaries fall to the safer tier — and `+∞` is safe. -/
theorem getRiskLevel_partition (hf warn crit : JSNum)
    (hcw : jlt crit warn = true) (hnn : hf ≠ JSNum.nan) :
    (getRiskLevel hf warn crit = RiskLevel.critical ∨
     getRiskLevel hf warn crit = RiskLevel.warning ∨
     getRiskLevel hf warn crit = RiskLevel.safe) ∧
    (getRiskLevel hf warn crit = RiskLevel.critical ↔ jlt hf crit = true) ∧
    (getRiskLevel hf warn crit = RiskLevel.warning ↔
      (jle crit hf = true ∧ jlt hf warn = true)) ∧
    (getRiskLevel hf warn crit = RiskLevel.safe ↔ jle warn hf = true) ∧
    getRiskLevel JSNum.posInf warn crit = RiskLevel.safe := by
  obtain ⟨hcnn, hwnn⟩ := jlt_ne_nan hcw
  have hpos : getRiskLevel JSNum.posInf warn crit = RiskLevel.safe := by
    simp [getRiskLevel, jlt_posInf_left]
  by_cases h1 : jlt hf crit = true
  · have hres : getRiskLevel hf warn crit = RiskLevel.critical := by
      simp [getRiskLevel, h1]
    have hnle : ¬ jle crit hf = true := by
      intro hc
      rw [jle_iff_not_jlt hcnn hnn] at hc
      simp [hc] at h1
    have hnsafe : ¬ jle warn hf = true := by
      intro hw
      have : jlt crit hf = true := jlt_trans_jle hcw hw
      have := jlt_asymm this
      simp [this] at h1
    refine ⟨Or.inl hres, ?_, ?_, ?_, hpos⟩
    · simp [hres, h1]
    · rw [hres]
      constructor
      · intro h
        exact absurd h (by decide)
      · rintro ⟨hc, -⟩
        exact absurd hc hnle
    · rw [hres]
      constructor
      · intro h
        exact absurd h (by decide)
      · intro hw
        exact absurd hw hnsafe
  · have h1f : jlt hf crit = false := by simpa using h1
    by_cases h2 : jlt hf warn = true
    · have hres : getRiskLevel hf warn crit = RiskLevel.warning := by
        simp [getRiskLevel, h1f, h2]
      have hle : jle crit hf = true := (jle_iff_not_jlt hcnn hnn).mpr h1f
      have hnsafe : ¬ jle warn hf = true := by
        intro hw
        rw [jle_iff_not_jlt hwnn hnn] at hw
        simp [hw] at h2
      refine ⟨Or.inr (Or.inl hres), ?_, ?_, ?_, hpos⟩
      · simp [hres, h1f]
      · simp [hres, hle, h2]
      · rw [hres]
        constructor
        · intro h
          exact absurd h (by decide)
        · intro hw
          exact absurd hw hnsafe
    · have h2f : jlt hf warn = false := by simpa using h2
      have hres : getRiskLevel hf warn crit = RiskLevel.safe := by
        simp [getRiskLevel, h1f, h2f]
      have hsafe : jle warn hf = true := (jle_iff_not_jlt hwnn hnn).mpr h2f
      refine ⟨Or.inr (Or.inr hres), ?_, ?_, ?_, hpos⟩
      · simp [hres, h1f]
      · simp [hres, h2f]
      · simp [hres, hsafe]

/-- Witness for C4 at the spec's own example thresholds
`warn = 1.7`, `crit = 1.5` and health factor `1.6` (warning tier). -/
theorem getRiskLevel_partition_witness :
    (getRiskLevel (JSNum.fin (8/5)) (JSNum.fin (17/10)) (JSNum.fin (3/2))
        = RiskLevel.critical ∨
     getRiskLevel (JSNum.fin (8/5)) (JSNum.fin (17/10)) (JSNum.fin (3/2))
        = RiskLevel.warning ∨
     getRiskLevel (JSNum.fin (8/5)) (JSNum.fin (17/10)) (JSNum.fin (3/2))
        = RiskLevel.safe) ∧
    (getRiskLevel (JSNum.fin (8/5)) (JSNum.fin (17/10)) (JSNum.fin (3/2))
        = RiskLevel.critical ↔
      jlt (JSNum.fin (8/5)) (JSNum.fin (3/2)) = true) ∧
    (getRiskLevel (JSNum.fin (8/5)) (JSNum.fin (17/10)) (JSNum.fin (3/2))
        = RiskLevel.warning ↔
      (jle (JSNum.fin (3/2)) (JSNum.fin (8/5)) = true ∧
       jlt (JSNum.fin (8/5)) (JSNum.fin (17/10)) = true)) ∧
    (getRiskLevel (JSNum.fin (8/5)) (JSNum.fin (17/10)) (JSNum.fin (3/2))
        = RiskLevel.safe ↔
      jle (JSNum.fin (17/10)) (JSNum.fin (8/5)) = true) ∧
    getRiskLevel JSNum.posInf (JSNum.fin (17/10)) (JSNum.fin (3/2))
        = RiskLevel.safe :=
  getRiskLevel_partition (JSNum.fin (8/5)) (JSNum.fin (17/10))
    (JSNum.fin (3/2)) (by norm_num [jlt]) (by decide)

/-- C6 counterexample: with `lastErrorAlertTime` stored at time 0 and the
cycle failing at exactly the 12-hour mark, the elapsed time equals the
cooldown — the claim's `elapsed ≥ cooldown ⇒ send` pattern demands an
attempt — yet the code's strict `>` comparison suppresses it. -/
theorem errorAlert_boundary_counterexample :
    ERROR_ALERT_COOLDOWN_MS - (0 : Int) ≥ ERROR_ALERT_COOLDOWN_MS ∧
    (errorAlertStep (some [("lastErrorAlertTime", KVValue.intStr 0)])
        ERROR_ALERT_COOLDOWN_MS).1 = false := by
  refine ⟨by omega, ?_⟩
  simp [errorAlertStep, kvRead, kvGet_cons_self]

/-- C6 (amended): an error alert is attempted only when no
`lastErrorAlertTime` record exists or when strictly more than the 12-hour
cooldown has elapsed since it (the code compares with `>`, so at exactly 12
hours the alert is still suppressed); and once an alert is attempted the
timestamp is rewritten to the current time, so a subsequent attempt succeeds
only strictly after another 12 hours — two error alerts are never emitted
within the 12-hour window. -/
theorem errorAlert_throttle (s : Store) (now now' : Int)
    (hsend : (errorAlertStep (some s) now).1 = true) :
    (kvGet s "lastErrorAlertTime" = none ∨
      ∃ t, kvGet s "lastErrorAlertTime" = some (KVValue.intStr t) ∧
        now - t > ERROR_ALERT_COOLDOWN_MS) ∧
    ((errorAlertStep (errorAlertStep (some s) now).2 now').1 = true →
      now' - now > ERROR_ALERT_COOLDOWN_MS) := by
  have hafter : ∀ hsent : (errorAlertStep (some s) now).2 =
      some (("lastErrorAlertTime", KVValue.intStr now) :: s),
      (errorAlertStep (errorAlertStep (some s) now).2 now').1 = true →
        now' - now > ERROR_ALERT_COOLDOWN_MS := by
    intro hsent h2
    rw [hsent] at h2
    by_cases hc : now' - now > ERROR_ALERT_COOLDOWN_MS
    · exact hc
    · simp [errorAlertStep, kvRead, kvGet_cons_self, hc] at h2
  rcases h : kvGet s "lastErrorAlertTime" with _ | v
  · refine ⟨Or.inl rfl, hafter ?_⟩
    simp [errorAlertStep, kvRead, kvPut, h]
  · cases v with
    | record r => simp [errorAlertStep, kvRead, h] at hsend
    | corrupt => simp [errorAlertStep, kvRead, h] at hsend
    | readFail => simp [errorAlertStep, kvRead, h] at hsend
    | intStr t =>
      by_cases hgate : now - t > ERROR_ALERT_COOLDOWN_MS
      · refine ⟨Or.inr ⟨t, rfl, hgate⟩, hafter ?_⟩
        simp [errorAlertStep, kvRead, kvPut, h, hgate]
      · simp [errorAlertStep, kvRead, h, hgate] at hsend

/-- Witness for C6's amended theorem: empty store (no prior error alert) at
time 0 — the alert is attempted, and after it no second attempt at time 0
can succeed. -/
theorem errorAlert_throttle_witness :
    (kvGet [] "lastErrorAlertTime" = none ∨
      ∃ t, kvGet [] "lastErrorAlertTime" = some (KVValue.intStr t) ∧
        (0 : Int) - t > ERROR_ALERT_COOLDOWN_MS) ∧
    ((errorAlertStep (errorAlertStep (some []) 0).2 0).1 = true →
      (0 : Int) - 0 > ERROR_ALERT_COOLDOWN_MS) :=
  errorAlert_throttle [] 0 0 rfl

/-- C7: the price-mirror step runs only when `NOTION_PRICES_DB_ID` is set and
either no `lastPriceUpdateTime` record exists or strictly more than the
1-hour throttle window has elapsed since it (otherwise it is skipped); the
stored timestamp is rewritten to the current time exactly when the push call
returned, and on any throwing outcome (or an empty symbol list) the store is
unchanged. -/
theorem priceMirror_throttle (kv : Option Store) (now : Int) (db : Bool)
    (outcome : MirrorOutcome)
    (hran : (priceMirrorStep kv now db outcome).1 = true) :
    (kvRead kv "lastPriceUpdateTime" = none ∨
      ∃ t, kvRead kv "lastPriceUpdateTime" = some (KVValue.intStr t) ∧
        now - t > PRICE_UPDATE_INTERVAL_MS) ∧
    (outcome ≠ MirrorOutcome.pushReturned →
      (priceMirrorStep kv now db outcome).2 = kv) ∧
    (outcome = MirrorOutcome.pushReturned →
      (priceMirrorStep kv now db outcome).2 =
        kvPut kv "lastPriceUpdateTime" (KVValue.intStr now)) := by
  cases db with
  | false => simp [priceMirrorStep] at hran
  | true =>
    rcases h : kvRead kv "lastPriceUpdateTime" with _ | v
    · refine ⟨Or.inl rfl, ?_, ?_⟩ <;> intro ho <;>
        cases outcome <;> simp_all [priceMirrorStep, h]
    · cases v with
      | record r => simp [priceMirrorStep, h] at hran
      | corrupt => simp [priceMirrorStep, h] at hran
      | readFail => simp [priceMirrorStep, h] at hran
      | intStr t =>
        by_cases hgate : now - t > PRICE_UPDATE_INTERVAL_MS
        · refine ⟨Or.inr ⟨t, rfl, hgate⟩, ?_, ?_⟩ <;> intro ho <;>
            cases outcome <;> simp_all [priceMirrorStep, h, hgate]
        · simp [priceMirrorStep, h, hgate] at hran

/-- Witness for C7: `lastPriceUpdateTime` set 65 minutes before the current
instant (the spec's own scenario) with the push throwing — the gate passes
and the stored timestamp stays unchanged. -/
theorem priceMirror_throttle_witness :
    (kvRead (some [("lastPriceUpdateTime", KVValue.intStr 0)])
        "lastPriceUpdateTime" = none ∨
      ∃ t, kvRead (some [("lastPriceUpdateTime", KVValue.intStr 0)])
          "lastPriceUpdateTime" = some (KVValue.intStr t) ∧
        (3900000 : Int) - t > PRICE_UPDATE_INTERVAL_MS) ∧
    (MirrorOutcome.pushThrew ≠ MirrorOutcome.pushReturned →
      (priceMirrorStep (some [("lastPriceUpdateTime", KVValue.intStr 0)])
        3900000 true MirrorOutcome.pushThrew).2 =
        some [("lastPriceUpdateTime", KVValue.intStr 0)]) ∧
    (MirrorOutcome.pushThrew = MirrorOutcome.pushReturned →
      (priceMirrorStep (some [("lastPriceUpdateTime", KVValue.intStr 0)])
        3900000 true MirrorOutcome.pushThrew).2 =
        kvPut (some [("lastPriceUpdateTime", KVValue.intStr 0)])
          "lastPriceUpdateTime" (KVValue.intStr 3900000)) :=
  priceMirror_throttle (some [("lastPriceUpdateTime", KVValue.intStr 0)])
    3900000 true MirrorOutcome.pushThrew (by decide)

lemma attemptsOf_append (l1 l2 : List (String × AlertLevel × Bool)) :
    attemptsOf (l1 ++ l2) = attemptsOf l1 ++ attemptsOf l2 := by
  simp [attemptsOf]

lemma attemptsOf_singleton (id : String) (L : AlertLevel) (b : Bool) :
    attemptsOf [(id, L, b)] = [(id, L)] := rfl

lemma processLoan_hfResults (warn crit : JSNum) (now : Int) (oracle : Nat → Bool)
    (st : CycleState) (loan : Loan) :
    (processLoan warn crit now oracle st loan).hfResults =
      st.hfResults ++ [⟨loan.id, loan.healthFactor, loan.assetSymbol⟩] := by
  simp only [processLoan]
  split_ifs <;> rfl

lemma processLoan_oracle_indep (warn crit : JSNum) (now : Int) (f g : Nat → Bool)
    (st1 st2 : CycleState) (loan : Loan)
    (hkv : st1.kv = st2.kv) (hal : st1.alertsSent = st2.alertsSent)
    (hhf : st1.hfResults = st2.hfResults)
    (hd : attemptsOf st1.dispatches = attemptsOf st2.dispatches) :
    (processLoan warn crit now f st1 loan).kv =
      (processLoan warn crit now g st2 loan).kv ∧
    (processLoan warn crit now f st1 loan).alertsSent =
      (processLoan warn crit now g st2 loan).alertsSent ∧
    (processLoan warn crit now f st1 loan).hfResults =
      (processLoan warn crit now g st2 loan).hfResults ∧
    attemptsOf (processLoan warn crit now f st1 loan).dispatches =
      attemptsOf (processLoan warn crit now g st2 loan).dispatches := by
  have hlen : st1.dispatches.length = st2.dispatches.length := by
    simpa [attemptsOf] using congrArg List.length hd
  unfold processLoan
  by_cases hc : jlt loan.healthFactor crit
  · by_cases hs : shouldSendAlert st1.kv loan.id AlertLevel.critical loan.assetSymbol now
    · have hs2 : shouldSendAlert st2.kv loan.id AlertLevel.critical loan.assetSymbol now := by
        rw [← hkv]; exact hs
      simp [hc, hs, hs2, hkv, hal, hhf, attemptsOf_append, attemptsOf_singleton, hd]
    · have hs2 : ¬ shouldSendAlert st2.kv loan.id AlertLevel.critical loan.assetSymbol now := by
        rw [← hkv]; exact hs
      simp [hc, hs, hs2, hkv, hal, hhf, hd]
  · by_cases hw : jlt loan.healthFactor warn
    · by_cases hs : shouldSendAlert st1.kv loan.id AlertLevel.warning loan.assetSymbol now
      · have hs2 : shouldSendAlert st2.kv loan.id AlertLevel.warning loan.assetSymbol now := by
          rw [← hkv]; exact hs
        simp [hc, hw, hs, hs2, hkv, hal, hhf, attemptsOf_append, attemptsOf_singleton, hd]
      · have hs2 : ¬ shouldSendAlert st2.kv loan.id AlertLevel.warning loan.assetSymbol now := by
          rw [← hkv]; exact hs
        simp [hc, hw, hs, hs2, hkv, hal, hhf, hd]
    · simp [hc, hw, hkv, hal, hhf, hd]

lemma foldl_oracle_indep (warn crit : JSNum) (now : Int) (f g : Nat → Bool)
    (loans : List Loan) :
    ∀ st1 st2 : CycleState, st1.kv = st2.kv → st1.alertsSent = st2.alertsSent →
    st1.hfResults = st2.hfResults →
    attemptsOf st1.dispatches = attemptsOf st2.dispatches →
    (loans.foldl (processLoan warn crit now f) st1).kv =
      (loans.foldl (processLoan warn crit now g) st2).kv ∧
    (loans.foldl (processLoan warn crit now f) st1).alertsSent =
      (loans.foldl (processLoan warn crit now g) st2).alertsSent ∧
    (loans.foldl (processLoan warn crit now f) st1).hfResults =
      (loans.foldl (processLoan warn crit now g) st2).hfResults ∧
    attemptsOf (loans.foldl (processLoan warn crit now f) st1).dispatches =
      attemptsOf (loans.foldl (processLoan warn crit now g) st2).dispatches := by
  induction loans with
  | nil => intro st1 st2 h1 h2 h3 h4; exact ⟨h1, h2, h3, h4⟩
  | cons l ls ih =>
    intro st1 st2 h1 h2 h3 h4
    obtain ⟨g1, g2, g3, g4⟩ :=
      processLoan_oracle_indep warn crit now f g st1 st2 l h1 h2 h3 h4
    exact ih _ _ g1 g2 g3 g4

lemma foldl_hfResults (warn crit : JSNum) (now : Int) (oracle : Nat → Bool)
    (loans : List Loan) :
    ∀ st : CycleState,
    (loans.foldl (processLoan warn crit now oracle) st).hfResults =
      st.hfResults ++
        loans.map (fun l => ⟨l.id, l.healthFactor, l.assetSymbol⟩) := by
  induction loans with
  | nil => intro st; simp
  | cons l ls ih =>
    intro st
    simp [List.foldl, ih, processLoan_hfResults]

/-- C8: per-loan isolation.  The transport outcome of every dispatch is
discarded by the loop (a `false` from `sendAlert` cannot abort it, and
`sendAlert` never throws), so two cycles over the same loan list that differ
only in which dispatches fail produce the same final store, the same
`alertsSent` list and the same sequence of dispatch attempts; and every loan
of the list is evaluated (appears in `hf_results`) whatever the outcomes. -/
theorem cycle_per_loan_isolation (warn crit : JSNum) (now : Int)
    (f g : Nat → Bool) (kv0 : Option Store) (loans : List Loan) :
    (runLoanCycle warn crit now f kv0 loans).kv =
      (runLoanCycle warn crit now g kv0 loans).kv ∧
    (runLoanCycle warn crit now f kv0 loans).alertsSent =
      (runLoanCycle warn crit now g kv0 loans).alertsSent ∧
    attemptsOf (runLoanCycle warn crit now f kv0 loans).dispatches =
      attemptsOf (runLoanCycle warn crit now g kv0 loans).dispatches ∧
    (runLoanCycle warn crit now f kv0 loans).hfResults =
      loans.map (fun l => ⟨l.id, l.healthFactor, l.assetSymbol⟩) := by
  obtain ⟨h1, h2, h3, h4⟩ := foldl_oracle_indep warn crit now f g loans
    { kv := kv0, alertsSent := [], dispatches := [], hfResults := [] }
    { kv := kv0, alertsSent := [], dispatches := [], hfResults := [] }
    rfl rfl rfl rfl
  refine ⟨h1, h2, h4, ?_⟩
  simpa using foldl_hfResults warn crit now f loans
    { kv := kv0, alertsSent := [], dispatches := [], hfResults := [] }

/-- C9: a `NaN` health factor compares false against both thresholds (IEEE
comparison semantics), so `getRiskLevel` classifies it safe and the loop
takes no alert path for that loan — no cooldown consultation, no dispatch,
no record, no `alertsSent` entry; only its `hf_results` entry is added.
Alerting for that loan is silently suppressed. -/
theorem nan_health_factor_no_alert (warn crit : JSNum) (id sym : String)
    (now : Int) (oracle : Nat → Bool) (st : CycleState) :
    jlt JSNum.nan crit = false ∧
    jlt JSNum.nan warn = false ∧
    getRiskLevel JSNum.nan warn crit = RiskLevel.safe ∧
    processLoan warn crit now oracle st ⟨id, JSNum.nan, sym⟩ =
      { st with hfResults := st.hfResults ++ [⟨id, JSNum.nan, sym⟩] } := by
  have h1 : jlt JSNum.nan crit = false := by cases crit <;> rfl
  have h2 : jlt JSNum.nan warn = false := by cases warn <;> rfl
  refine ⟨h1, h2, ?_, ?_⟩
  · simp [getRiskLevel, h1, h2]
  · simp [processLoan, h1, h2]

/-- C10: when the cooldown permits an alert for a loan, the loop records the
alert right after the dispatch call without consulting the transport's
boolean: with the dispatch reporting delivery failure (`false`), the
`AlertRecord` is still written, and a subsequent same-level query within the
10-minute window returns `false` — a failed delivery still starts the full
cooldown. -/
theorem record_despite_failed_dispatch (kv : Store) (id sym : String)
    (hf warn crit : JSNum) (now t' : Int) (L : AlertLevel)
    (hbranch : (L = AlertLevel.critical ∧ jlt hf crit = true) ∨
      (L = AlertLevel.warning ∧ jlt hf crit = false ∧ jlt hf warn = true))
    (hshould : shouldSendAlert (some kv) id L sym now = true)
    (hwin : t' - now < COOLDOWN_MS) :
    (processLoan warn crit now (fun _ => false)
        { kv := some kv, alertsSent := [], dispatches := [], hfResults := [] }
        ⟨id, hf, sym⟩).dispatches = [(id, L, false)] ∧
    (processLoan warn crit now (fun _ => false)
        { kv := some kv, alertsSent := [], dispatches := [], hfResults := [] }
        ⟨id, hf, sym⟩).kv = recordAlert (some kv) id L sym now ∧
    shouldSendAlert (recordAlert (some kv) id L sym now) id L sym t' = false := by
  rcases hbranch with ⟨rfl, hc⟩ | ⟨rfl, hc, hw⟩
  · refine ⟨by simp [processLoan, hc, hshould], by simp [processLoan, hc, hshould], ?_⟩
    simp [shouldSendAlert, recordAlert, kvGet_cons_self]
    omega
  · refine ⟨by simp [processLoan, hc, hw, hshould],
      by simp [processLoan, hc, hw, hshould], ?_⟩
    simp [shouldSendAlert, recordAlert, kvGet_cons_self]
    omega

/-- Witness for C10 at a concrete input: empty store, critical loan, failing
transport, immediate re-query. -/
theorem record_despite_failed_dispatch_witness :
    (processLoan (JSNum.fin 17) (JSNum.fin 15) 0 (fun _ => false)
        { kv := some [], alertsSent := [], dispatches := [], hfResults := [] }
        ⟨"L1", JSNum.fin 1, "ADA"⟩).dispatches =
      [("L1", AlertLevel.critical, false)] ∧
    (processLoan (JSNum.fin 17) (JSNum.fin 15) 0 (fun _ => false)
        { kv := some [], alertsSent := [], dispatches := [], hfResults := [] }
        ⟨"L1", JSNum.fin 1, "ADA"⟩).kv =
      recordAlert (some []) "L1" AlertLevel.critical "ADA" 0 ∧
    shouldSendAlert (recordAlert (some []) "L1" AlertLevel.critical "ADA" 0)
      "L1" AlertLevel.critical "ADA" 0 = false :=
  record_despite_failed_dispatch [] "L1" "ADA" (JSNum.fin 1) (JSNum.fin 17)
    (JSNum.fin 15) 0 0 AlertLevel.critical (Or.inl ⟨rfl, by decide⟩) rfl
    (by decide)
